import Mathlib

/-!
Shallow embedding of the SOLUSync-X web client (TypeScript sources
`client-web/src/clock.ts`, `player.ts`, `client.ts`) for verifying the
clock-discipline, frame-admission and network-quality claims.

JavaScript numbers are modelled as exact rationals (ℚ); the `Date.now()
/ 1000` reads that the TypeScript methods perform internally are passed
in as explicit parameters, so every operation is a pure function of the
prior state and the local-clock reading.  A separate small model of
IEEE-754 special values (`JSVal`) is used only where a claim is about
NaN/infinity propagation.
-/

namespace SoluSync

/-- Embeds the `ClockSample` interface of `types.ts`:
`{offset, rtt, timestamp}`. -/
structure ClockSample where
  offset : ℚ
  rtt : ℚ
  timestamp : ℚ
deriving DecidableEq, Repr

instance : Inhabited ClockSample := ⟨⟨0, 0, 0⟩⟩

/-- Embeds the mutable fields of `class ClockSync` in `clock.ts`:
`offset`, `drift`, `samples`, `lastSyncTime`.  The constant fields
`maxSamples = 20` and `filterWeight = 0.1` are modelled as the
definitions below. -/
structure ClockSync where
  offset : ℚ
  drift : ℚ
  samples : List ClockSample
  lastSyncTime : ℚ
deriving DecidableEq, Repr

/-- `private maxSamples: number = 20` in `clock.ts`. -/
def maxSamples : Nat := 20

/-- `private filterWeight: number = 0.1` in `clock.ts`. -/
def filterWeight : ℚ := 0.1

/-- The state produced by the `ClockSync` constructor, identical to the
state after `reset()`: all numeric fields `0`, empty ring. -/
def ClockSync.init : ClockSync := ⟨0, 0, [], 0⟩

/-- `reset()` in `clock.ts`: zeroes `offset` and `drift`, clears the
ring, zeroes `lastSyncTime`. -/
def ClockSync.reset (_s : ClockSync) : ClockSync := ClockSync.init

/-- `now()` in `clock.ts`: `localTime + offset + drift * (localTime -
lastSyncTime)`, with the `Date.now() / 1000` read passed as
`localTime`. -/
def ClockSync.now (s : ClockSync) (localTime : ℚ) : ℚ :=
  localTime + s.offset + s.drift * (localTime - s.lastSyncTime)

/-- `getOffset()` in `clock.ts`. -/
def ClockSync.getOffset (s : ClockSync) : ℚ := s.offset

/-- `getLastRTT()` in `clock.ts`: `0` on an empty ring, otherwise
`samples[samples.length - 1].rtt * 1000` (the comment in the source
says: convert to ms). -/
def ClockSync.getLastRTT (s : ClockSync) : ℚ :=
  match s.samples.getLast? with
  | none => 0
  | some sample => sample.rtt * 1000

/-- `arr.slice(-n)` on a JavaScript array for `0 < n`: the last `n`
elements (the whole array when `n` is at least its length). -/
def sliceLast (n : Nat) (l : List ClockSample) : List ClockSample :=
  l.drop (l.length - n)

/-- The `sumX` accumulator of the regression loop in
`calculateDrift`: the sum of `sample.timestamp - t0` over the window. -/
def sumX (t0 : ℚ) (l : List ClockSample) : ℚ :=
  (l.map (fun sample => sample.timestamp - t0)).sum

/-- The `sumY` accumulator of the regression loop in
`calculateDrift`: the sum of `sample.offset` over the window. -/
def sumY (l : List ClockSample) : ℚ :=
  (l.map (fun sample => sample.offset)).sum

/-- The `sumXY` accumulator of the regression loop in
`calculateDrift`. -/
def sumXY (t0 : ℚ) (l : List ClockSample) : ℚ :=
  (l.map (fun sample => (sample.timestamp - t0) * sample.offset)).sum

/-- The `sumXX` accumulator of the regression loop in
`calculateDrift`. -/
def sumXX (t0 : ℚ) (l : List ClockSample) : ℚ :=
  (l.map (fun sample => (sample.timestamp - t0) * (sample.timestamp - t0))).sum

/-- `private calculateDrift()` in `clock.ts`: returns unchanged below 3
samples; otherwise runs the regression over the last
`n = Math.min(10, samples.length)` samples with `x = timestamp -
recent[0].timestamp`, `y = offset`, and writes the slope to `drift`
only when `Math.abs(denom) > 0.0001`. -/
def ClockSync.calculateDrift (s : ClockSync) : ClockSync :=
  if s.samples.length < 3 then s
  else
    let n := Nat.min 10 s.samples.length
    let recent := sliceLast n s.samples
    let t0 := recent.headI.timestamp
    let sX := sumX t0 recent
    let sY := sumY recent
    let sXY := sumXY t0 recent
    let sXX := sumXX t0 recent
    let denom := (n : ℚ) * sXX - sX * sX
    if 0.0001 < |denom| then
      { s with drift := ((n : ℚ) * sXY - sX * sY) / denom }
    else s

/-- `private addSample(sample)` in `clock.ts`: push the sample, trim the
ring to `maxSamples` via `slice(-maxSamples)` when it overflows, fuse
the offset by the exponential moving average with weight
`filterWeight`, recompute drift when at least 3 samples are held, and
anchor `lastSyncTime` to the new sample timestamp. -/
def ClockSync.addSample (s : ClockSync) (sample : ClockSample) : ClockSync :=
  let pushed := s.samples ++ [sample]
  let trimmed := if maxSamples < pushed.length then sliceLast maxSamples pushed else pushed
  let s1 : ClockSync :=
    { s with
      samples := trimmed
      offset := s.offset * (1 - filterWeight) + sample.offset * filterWeight }
  let s2 := if 3 ≤ s1.samples.length then s1.calculateDrift else s1
  { s2 with lastSyncTime := sample.timestamp }

/-- `handleResponse(response)` in `clock.ts`: `t1` is the stored probe
send time, `t2`/`t3` come from the response, `t4` is the local receive
time (`Date.now() / 1000`, passed as a parameter).  Computes `rtt =
(t4 - t1) - (t3 - t2)` and `offset = ((t2 - t1) + (t3 - t4)) / 2` and
unconditionally hands the sample to `addSample`. -/
def ClockSync.handleResponse (s : ClockSync) (t1 t2 t3 t4 : ℚ) : ClockSync :=
  let rtt := (t4 - t1) - (t3 - t2)
  let offset := ((t2 - t1) + (t3 - t4)) / 2
  s.addSample ⟨offset, rtt, t4⟩

/-- `updateQuickSample(offset, rtt)` in `clock.ts`: wraps the arguments
in a sample stamped with the current local time and hands it to
`addSample`. -/
def ClockSync.updateQuickSample (s : ClockSync) (offset rtt localTime : ℚ) : ClockSync :=
  s.addSample ⟨offset, rtt, localTime⟩

/-- The three outcomes of the admission check at the top of
`FutureAudioPlayer.scheduleFrame` in `player.ts`: the two early
`return` paths and the path that decodes and schedules the frame. -/
inductive FrameDecision where
  | dropLate
  | dropTooFar
  | emit
deriving DecidableEq, Repr

/-- The admission logic of `scheduleFrame(frame)` in `player.ts`:
`delay = frame.timestamp - clockSync.now()`; `delay < 0` drops the
frame as late, `delay > 10` drops it as too far in the future, and
otherwise the frame is decoded and scheduled on the audio context. -/
def FutureAudioPlayer.scheduleFrame (nowVal frameTimestamp : ℚ) : FrameDecision :=
  let delay := frameTimestamp - nowVal
  if delay < 0 then FrameDecision.dropLate
  else if 10 < delay then FrameDecision.dropTooFar
  else FrameDecision.emit

/-- `NetworkQuality` as in `types.ts`. -/
inductive NetworkQuality where
  | excellent
  | good
  | fair
  | poor
  | critical
deriving DecidableEq, Repr

/-- The threshold table inside `SoluSyncClient.getNetworkQuality` in
`client.ts`, as a function of the rtt value it branches on. -/
def qualityOfRTT (rtt : ℚ) : NetworkQuality :=
  if rtt < 10 then NetworkQuality.excellent
  else if rtt < 50 then NetworkQuality.good
  else if rtt < 100 then NetworkQuality.fair
  else if rtt < 200 then NetworkQuality.poor
  else NetworkQuality.critical

/-- `SoluSyncClient.getNetworkQuality()` in `client.ts`: reads
`clockSync.getLastRTT()` and consults the threshold table on that raw
value. -/
def SoluSyncClient.getNetworkQuality (s : ClockSync) : NetworkQuality :=
  qualityOfRTT s.getLastRTT

/-- `SoluSyncClient.handleHeartbeat(message)` in `client.ts`, on a
message carrying `server_time`: `rtt = Date.now()/1000 - client_time`,
`offset = server_time - Date.now()/1000 + rtt/2`, then
`clockSync.updateQuickSample(offset, rtt)`.  All three `Date.now() /
1000` reads in the handler are modelled as the same instant
`localTime`. -/
def SoluSyncClient.handleHeartbeat (s : ClockSync) (clientTime serverTime localTime : ℚ) :
    ClockSync :=
  let rtt := localTime - clientTime
  let offset := serverTime - localTime + rtt / 2
  s.updateQuickSample offset rtt localTime

/-! ### IEEE-754 special-value model

The claims about NaN/infinity behaviour cannot be expressed over ℚ, so
the clock is re-embedded below over `JSVal`, a model of a JavaScript
number that is either an exact finite value or one of the IEEE-754
special values `NaN`, `+∞`, `−∞`, with the propagation rules of
JavaScript arithmetic for those special values. -/

/-- A JavaScript number: a finite value (idealised as a rational) or an
IEEE-754 special value. -/
inductive JSVal where
  | fin (q : ℚ)
  | nan
  | inf
  | ninf
deriving DecidableEq, Repr

namespace JSVal

/-- JavaScript `+` on `JSVal`: NaN is absorbing, `∞ + (−∞)` is NaN,
infinities otherwise dominate. -/
def add : JSVal → JSVal → JSVal
  | nan, _ => nan
  | _, nan => nan
  | inf, ninf => nan
  | ninf, inf => nan
  | inf, _ => inf
  | _, inf => inf
  | ninf, _ => ninf
  | _, ninf => ninf
  | fin a, fin b => fin (a + b)

/-- JavaScript unary `-` on `JSVal`. -/
def neg : JSVal → JSVal
  | nan => nan
  | inf => ninf
  | ninf => inf
  | fin a => fin (-a)

/-- JavaScript `-` on `JSVal`. -/
def sub (a b : JSVal) : JSVal := a.add b.neg

/-- JavaScript `*` on `JSVal`: NaN is absorbing, `±∞ * 0` is NaN,
infinities otherwise follow the sign rule. -/
def mul : JSVal → JSVal → JSVal
  | nan, _ => nan
  | _, nan => nan
  | inf, inf => inf
  | inf, ninf => ninf
  | ninf, inf => ninf
  | ninf, ninf => inf
  | inf, fin b => if b = 0 then nan else if 0 < b then inf else ninf
  | fin a, inf => if a = 0 then nan else if 0 < a then inf else ninf
  | ninf, fin b => if b = 0 then nan else if 0 < b then ninf else inf
  | fin a, ninf => if a = 0 then nan else if 0 < a then ninf else inf
  | fin a, fin b => fin (a * b)

/-- JavaScript `/` on `JSVal` (the signed-zero distinction is not
modelled: division of a nonzero finite value by zero yields `+∞` or
`−∞` by the numerator sign, as for `+0`). -/
def div : JSVal → JSVal → JSVal
  | nan, _ => nan
  | _, nan => nan
  | inf, inf => nan
  | inf, ninf => nan
  | ninf, inf => nan
  | ninf, ninf => nan
  | inf, fin b => if 0 ≤ b then inf else ninf
  | ninf, fin b => if 0 ≤ b then ninf else inf
  | fin _, inf => fin 0
  | fin _, ninf => fin 0
  | fin a, fin b =>
    if b = 0 then (if a = 0 then nan else if 0 < a then inf else ninf)
    else fin (a / b)

/-- JavaScript `<` on `JSVal`: any comparison with NaN is false. -/
def ltb : JSVal → JSVal → Bool
  | nan, _ => false
  | _, nan => false
  | inf, _ => false
  | _, inf => true
  | ninf, ninf => false
  | ninf, _ => true
  | _, ninf => false
  | fin a, fin b => decide (a < b)

/-- `Math.abs` on `JSVal`. -/
def abs : JSVal → JSVal
  | nan => nan
  | inf => inf
  | ninf => inf
  | fin a => fin |a|

end JSVal

namespace JSModel

/-- `ClockSample` of `types.ts`, over the IEEE special-value model. -/
structure ClockSample where
  offset : JSVal
  rtt : JSVal
  timestamp : JSVal
deriving DecidableEq, Repr

instance : Inhabited ClockSample := ⟨⟨JSVal.fin 0, JSVal.fin 0, JSVal.fin 0⟩⟩

/-- `class ClockSync` of `clock.ts`, over the IEEE special-value
model. -/
structure ClockSync where
  offset : JSVal
  drift : JSVal
  samples : List ClockSample
  lastSyncTime : JSVal
deriving DecidableEq, Repr

/-- The constructor / `reset()` state over the IEEE special-value
model. -/
def ClockSync.init : ClockSync := ⟨JSVal.fin 0, JSVal.fin 0, [], JSVal.fin 0⟩

/-- `arr.slice(-n)` over the IEEE special-value model samples. -/
def sliceLast (n : Nat) (l : List ClockSample) : List ClockSample :=
  l.drop (l.length - n)

/-- The four regression accumulators of `calculateDrift`, folded with
JavaScript arithmetic exactly as the `for` loop in `clock.ts` does. -/
def regSums (t0 : JSVal) (l : List ClockSample) : JSVal × JSVal × JSVal × JSVal :=
  l.foldl
    (fun acc sample =>
      let x := sample.timestamp.sub t0
      let y := sample.offset
      (acc.1.add x, acc.2.1.add y, acc.2.2.1.add (x.mul y), acc.2.2.2.add (x.mul x)))
    (JSVal.fin 0, JSVal.fin 0, JSVal.fin 0, JSVal.fin 0)

/-- `calculateDrift()` of `clock.ts` over the IEEE special-value model:
note that when any accumulator is NaN the guard
`Math.abs(denom) > 0.0001` is false and drift is left unchanged. -/
def ClockSync.calculateDrift (s : ClockSync) : ClockSync :=
  if s.samples.length < 3 then s
  else
    let n := Nat.min 10 s.samples.length
    let recent := sliceLast n s.samples
    let t0 := recent.headI.timestamp
    let sums := regSums t0 recent
    let denom := ((JSVal.fin (n : ℚ)).mul sums.2.2.2).sub (sums.1.mul sums.1)
    if (JSVal.fin 0.0001).ltb denom.abs then
      { s with drift := (((JSVal.fin (n : ℚ)).mul sums.2.2.1).sub (sums.1.mul sums.2.1)).div denom }
    else s

/-- `addSample(sample)` of `clock.ts` over the IEEE special-value
model: the push, the trim, the EMA fusion and the anchor update are
all unconditional — no finiteness check guards any of them. -/
def ClockSync.addSample (s : ClockSync) (sample : ClockSample) : ClockSync :=
  let pushed := s.samples ++ [sample]
  let trimmed := if maxSamples < pushed.length then sliceLast maxSamples pushed else pushed
  let s1 : ClockSync :=
    { s with
      samples := trimmed
      offset := (s.offset.mul ((JSVal.fin 1).sub (JSVal.fin 0.1))).add
        (sample.offset.mul (JSVal.fin 0.1)) }
  let s2 := if 3 ≤ s1.samples.length then s1.calculateDrift else s1
  { s2 with lastSyncTime := sample.timestamp }

/-- `handleResponse` of `clock.ts` over the IEEE special-value model. -/
def ClockSync.handleResponse (s : ClockSync) (t1 t2 t3 t4 : JSVal) : ClockSync :=
  let rtt := (t4.sub t1).sub (t3.sub t2)
  let offset := ((t2.sub t1).add (t3.sub t4)).div (JSVal.fin 2)
  s.addSample ⟨offset, rtt, t4⟩

/-- `updateQuickSample` of `clock.ts` over the IEEE special-value
model. -/
def ClockSync.updateQuickSample (s : ClockSync) (offset rtt localTime : JSVal) : ClockSync :=
  s.addSample ⟨offset, rtt, localTime⟩

end JSModel

/-! ### Spec-side regression formulas

The spec states the drift regression with `x` equal to the raw sample
receive time; the code shifts `x` by the first window timestamp.  The
definitions below state the spec's form (over the source's accumulator
definitions at shift `0`); shift-invariance lemmas connect the two. -/

/-- The OLS denominator `n·Σx² − (Σx)²` with `x` the raw receive
times, as the spec words it. -/
def olsDenom (l : List ClockSample) : ℚ :=
  (l.length : ℚ) * sumXX 0 l - sumX 0 l * sumX 0 l

/-- The OLS slope `(n·Σxy − Σx·Σy) / (n·Σx² − (Σx)²)` with `x` the raw
receive times and `y` the measured offsets, as the spec words it. -/
def olsSlope (l : List ClockSample) : ℚ :=
  ((l.length : ℚ) * sumXY 0 l - sumX 0 l * sumY l) / olsDenom l

/-- The regression window: the last `min(10, samples.length)` samples,
exactly the `recent` binding of `calculateDrift`. -/
def recentWindow (s : ClockSync) : List ClockSample :=
  sliceLast (Nat.min 10 s.samples.length) s.samples

/-- The spec-side smoothing the network-quality claim asserts: raw RTT
inputs smoothed by the same EMA used for offset (weight `0.1`,
accumulator starting at `0` like the offset EMA) before the quality
table is consulted.  Stated here only for comparison: the code's
`getNetworkQuality` consults the table on the raw last-sample RTT. -/
def specSmoothedRTT (raws : List ℚ) : ℚ :=
  raws.foldl (fun acc r => acc * (1 - filterWeight) + r * filterWeight) 0

/-! ### Helper lemmas -/

lemma calculateDrift_samples (s : ClockSync) : s.calculateDrift.samples = s.samples := by
  unfold ClockSync.calculateDrift
  split
  · rfl
  · dsimp only
    split <;> rfl

lemma calculateDrift_offset (s : ClockSync) : s.calculateDrift.offset = s.offset := by
  unfold ClockSync.calculateDrift
  split
  · rfl
  · dsimp only
    split <;> rfl

lemma calculateDrift_lastSyncTime (s : ClockSync) :
    s.calculateDrift.lastSyncTime = s.lastSyncTime := by
  unfold ClockSync.calculateDrift
  split
  · rfl
  · dsimp only
    split <;> rfl

lemma trim_eq (l : List ClockSample) (smp : ClockSample) :
    (if maxSamples < (l ++ [smp]).length then sliceLast maxSamples (l ++ [smp]) else l ++ [smp])
      = (l ++ [smp]).drop (l.length + 1 - maxSamples) := by
  split
  · simp [sliceLast]
  · rename_i h
    simp only [List.length_append, List.length_cons, List.length_nil] at h
    rw [Nat.sub_eq_zero_of_le (by omega), List.drop_zero]

lemma addSample_samples (s : ClockSync) (smp : ClockSample) :
    (s.addSample smp).samples = (s.samples ++ [smp]).drop (s.samples.length + 1 - maxSamples) := by
  unfold ClockSync.addSample
  dsimp only
  rw [trim_eq]
  split
  · rw [calculateDrift_samples]
  · rfl

lemma addSample_lastSyncTime (s : ClockSync) (smp : ClockSample) :
    (s.addSample smp).lastSyncTime = smp.timestamp := rfl

lemma addSample_offset (s : ClockSync) (smp : ClockSample) :
    (s.addSample smp).offset = s.offset * (1 - filterWeight) + smp.offset * filterWeight := by
  unfold ClockSync.addSample
  dsimp only
  rw [trim_eq]
  split
  · rw [calculateDrift_offset]
  · rfl

lemma addSample_getLast (s : ClockSync) (smp : ClockSample) :
    (s.addSample smp).samples.getLast? = some smp := by
  rw [addSample_samples]
  have hm : maxSamples = 20 := rfl
  rw [List.drop_append_of_le_length (by omega : s.samples.length + 1 - maxSamples ≤ s.samples.length)]
  exact List.getLast?_concat _

lemma addSample_length (s : ClockSync) (smp : ClockSample) :
    (s.addSample smp).samples.length = Nat.min (s.samples.length + 1) maxSamples := by
  rw [addSample_samples]
  have hm : maxSamples = 20 := rfl
  simp only [List.length_drop, List.length_append, List.length_cons, List.length_nil, hm,
    Nat.min_def]
  split_ifs <;> omega

lemma sumX_shift (c : ℚ) (l : List ClockSample) :
    sumX c l = sumX 0 l - l.length * c := by
  induction l with
  | nil => simp [sumX]
  | cons a l ih =>
    simp only [sumX, List.map_cons, List.sum_cons, List.length_cons] at ih ⊢
    push_cast
    linarith

lemma sumXY_shift (c : ℚ) (l : List ClockSample) :
    sumXY c l = sumXY 0 l - c * sumY l := by
  induction l with
  | nil => simp [sumXY, sumY]
  | cons a l ih =>
    simp only [sumXY, sumY, List.map_cons, List.sum_cons] at ih ⊢
    rw [ih]
    ring

lemma sumXX_shift (c : ℚ) (l : List ClockSample) :
    sumXX c l = sumXX 0 l - 2 * c * sumX 0 l + l.length * (c * c) := by
  induction l with
  | nil => simp [sumXX, sumX]
  | cons a l ih =>
    simp only [sumXX, sumX, List.map_cons, List.sum_cons, List.length_cons] at ih ⊢
    push_cast
    rw [ih]
    ring

/-- The regression denominator is invariant under shifting the `x`
values by a constant. -/
lemma denom_shift (c : ℚ) (l : List ClockSample) :
    (l.length : ℚ) * sumXX c l - sumX c l * sumX c l
      = (l.length : ℚ) * sumXX 0 l - sumX 0 l * sumX 0 l := by
  rw [sumX_shift, sumXX_shift]
  ring

/-- The regression slope numerator is invariant under shifting the `x`
values by a constant. -/
lemma numer_shift (c : ℚ) (l : List ClockSample) :
    (l.length : ℚ) * sumXY c l - sumX c l * sumY l
      = (l.length : ℚ) * sumXY 0 l - sumX 0 l * sumY l := by
  rw [sumX_shift, sumXY_shift]
  ring

lemma sliceLast_length (n : Nat) (l : List ClockSample) (h : n ≤ l.length) :
    (sliceLast n l).length = n := by
  simp only [sliceLast, List.length_drop]
  omega

lemma recentWindow_length (s : ClockSync) :
    (recentWindow s).length = Nat.min 10 s.samples.length :=
  sliceLast_length _ _ (Nat.min_le_right _ _)

/-- On a ring of at least 3 samples, `calculateDrift` either writes the
spec-form OLS slope over the window (raw receive times) or, when the
spec-form denominator is too small in magnitude, leaves the state
unchanged. -/
lemma calculateDrift_eq (s : ClockSync) (h3 : 3 ≤ s.samples.length) :
    s.calculateDrift
      = if 0.0001 < |olsDenom (recentWindow s)| then
          { s with drift := olsSlope (recentWindow s) } else s := by
  unfold ClockSync.calculateDrift recentWindow olsSlope olsDenom
  rw [if_neg (by omega : ¬ s.samples.length < 3)]
  dsimp only
  set l := sliceLast (Nat.min 10 s.samples.length) s.samples with hl
  have hlen : l.length = Nat.min 10 s.samples.length := by
    rw [hl]
    exact sliceLast_length _ _ (Nat.min_le_right _ _)
  rw [← hlen]
  rw [denom_shift l.headI.timestamp l, numer_shift l.headI.timestamp l]

lemma addSample_drift_small (s : ClockSync) (smp : ClockSample) (h : s.samples.length < 2) :
    (s.addSample smp).drift = s.drift := by
  unfold ClockSync.addSample
  dsimp only
  have hm : maxSamples = 20 := rfl
  rw [trim_eq, if_neg (by
    simp only [List.length_drop, List.length_append, List.length_cons, List.length_nil]
    omega)]

/-- Once the ring is large enough (and not yet trimming), `addSample`
delegates the drift update to `calculateDrift` on the post-push,
post-EMA state. -/
lemma addSample_drift_calc (s : ClockSync) (smp : ClockSample) (h2 : 2 ≤ s.samples.length)
    (h19 : s.samples.length ≤ 19) :
    (s.addSample smp).drift
      = (ClockSync.mk (s.offset * (1 - filterWeight) + smp.offset * filterWeight) s.drift
          (s.samples ++ [smp]) s.lastSyncTime).calculateDrift.drift := by
  unfold ClockSync.addSample
  dsimp only
  rw [trim_eq]
  have hm : maxSamples = 20 := rfl
  rw [(by omega : s.samples.length + 1 - maxSamples = 0), List.drop_zero, if_pos (by
    simp only [List.length_append, List.length_cons, List.length_nil]
    omega)]

lemma addSample_offset_delta (s : ClockSync) (smp : ClockSample) :
    |(s.addSample smp).offset - s.offset| = filterWeight * |smp.offset - s.offset| := by
  rw [addSample_offset]
  rw [(by ring : s.offset * (1 - filterWeight) + smp.offset * filterWeight - s.offset
      = filterWeight * (smp.offset - s.offset))]
  rw [abs_mul, abs_of_nonneg (by norm_num [filterWeight] : (0:ℚ) ≤ filterWeight)]

lemma getLastRTT_addSample (s : ClockSync) (smp : ClockSample) :
    (s.addSample smp).getLastRTT = smp.rtt * 1000 := by
  unfold ClockSync.getLastRTT
  rw [addSample_getLast]

/-! ### Helper lemmas for the IEEE special-value model -/

namespace JSModel

lemma jsCalculateDrift_samples (s : ClockSync) : s.calculateDrift.samples = s.samples := by
  unfold ClockSync.calculateDrift
  split
  · rfl
  · dsimp only
    split <;> rfl

lemma jsCalculateDrift_offset (s : ClockSync) : s.calculateDrift.offset = s.offset := by
  unfold ClockSync.calculateDrift
  split
  · rfl
  · dsimp only
    split <;> rfl

lemma jsTrim_eq (l : List ClockSample) (smp : ClockSample) :
    (if maxSamples < (l ++ [smp]).length then sliceLast maxSamples (l ++ [smp]) else l ++ [smp])
      = (l ++ [smp]).drop (l.length + 1 - maxSamples) := by
  split
  · simp [sliceLast]
  · rename_i h
    simp only [List.length_append, List.length_cons, List.length_nil] at h
    rw [Nat.sub_eq_zero_of_le (by omega), List.drop_zero]

lemma jsAddSample_samples (s : ClockSync) (smp : ClockSample) :
    (s.addSample smp).samples = (s.samples ++ [smp]).drop (s.samples.length + 1 - maxSamples) := by
  unfold ClockSync.addSample
  dsimp only
  rw [jsTrim_eq]
  split
  · rw [jsCalculateDrift_samples]
  · rfl

lemma jsAddSample_getLast (s : ClockSync) (smp : ClockSample) :
    (s.addSample smp).samples.getLast? = some smp := by
  rw [jsAddSample_samples]
  have hm : maxSamples = 20 := rfl
  rw [List.drop_append_of_le_length (by omega : s.samples.length + 1 - maxSamples ≤ s.samples.length)]
  exact List.getLast?_concat _

lemma jsAddSample_offset (s : ClockSync) (smp : ClockSample) :
    (s.addSample smp).offset
      = (s.offset.mul ((JSVal.fin 1).sub (JSVal.fin 0.1))).add (smp.offset.mul (JSVal.fin 0.1)) := by
  unfold ClockSync.addSample
  dsimp only
  rw [jsTrim_eq]
  split
  · rw [jsCalculateDrift_offset]
  · rfl

lemma jsAddSample_lastSyncTime (s : ClockSync) (smp : ClockSample) :
    (s.addSample smp).lastSyncTime = smp.timestamp := rfl

end JSModel

/-! ### Claim theorems -/

/-- C1 (counterexample): the probe `(t1,t2,t3,t4) = (1,1,1,0)` has
`rtt = (t4 - t1) - (t3 - t2) = -1 < 0`, yet `handleResponse` does not
ignore it: the sample is appended to the empty ring and the offset is
fused, so the state changes. -/
theorem C1_counterexample :
    ((0 : ℚ) - 1) - (1 - 1) < 0 ∧
    (ClockSync.init.handleResponse 1 1 1 0).samples.length = 1 ∧
    (ClockSync.init.handleResponse 1 1 1 0).offset ≠ ClockSync.init.offset := by
  norm_num [ClockSync.init, ClockSync.handleResponse, ClockSync.addSample,
    ClockSync.calculateDrift, sliceLast, filterWeight, maxSamples]

/-- C1 (amended): `handleResponse` computes `rtt = (t4 - t1) - (t3 -
t2)` and `offset_meas = ((t2 - t1) + (t3 - t4)) / 2` and always
appends and fuses a sample with exactly those values; no rtt-based
rejection (negative or over a threshold) exists in the code. -/
theorem C1_submit_probe_always_fused (s : ClockSync) (t1 t2 t3 t4 : ℚ) :
    s.handleResponse t1 t2 t3 t4
        = s.addSample ⟨((t2 - t1) + (t3 - t4)) / 2, (t4 - t1) - (t3 - t2), t4⟩ ∧
    (s.handleResponse t1 t2 t3 t4).samples.getLast?
        = some ⟨((t2 - t1) + (t3 - t4)) / 2, (t4 - t1) - (t3 - t2), t4⟩ ∧
    (s.handleResponse t1 t2 t3 t4).samples.length = Nat.min (s.samples.length + 1) maxSamples :=
  ⟨rfl, addSample_getLast _ _, addSample_length _ _⟩

/-- C2: with `δ = presentation_τ - now()` at admission, `scheduleFrame`
drops the frame when `δ < 0` (late) and when `δ > 10` seconds (too far
in the future), and emits it at the boundary `δ = 0` exactly. -/
theorem C2_frame_admission (nowVal ts : ℚ) :
    (ts - nowVal < 0 → FutureAudioPlayer.scheduleFrame nowVal ts = FrameDecision.dropLate) ∧
    (10 < ts - nowVal → FutureAudioPlayer.scheduleFrame nowVal ts = FrameDecision.dropTooFar) ∧
    (ts = nowVal → FutureAudioPlayer.scheduleFrame nowVal ts = FrameDecision.emit) := by
  refine ⟨fun h => ?_, fun h => ?_, fun h => ?_⟩
  · unfold FutureAudioPlayer.scheduleFrame
    rw [if_pos h]
  · unfold FutureAudioPlayer.scheduleFrame
    rw [if_neg (by linarith), if_pos h]
  · subst h
    unfold FutureAudioPlayer.scheduleFrame
    simp

theorem C2_witness :
    ((4 : ℚ) - 5 < 0 ∧ FutureAudioPlayer.scheduleFrame 5 4 = FrameDecision.dropLate) ∧
    (10 < (20 : ℚ) - 5 ∧ FutureAudioPlayer.scheduleFrame 5 20 = FrameDecision.dropTooFar) ∧
    ((5 : ℚ) = 5 ∧ FutureAudioPlayer.scheduleFrame 5 5 = FrameDecision.emit) :=
  ⟨⟨by norm_num, (C2_frame_admission 5 4).1 (by norm_num)⟩,
   ⟨by norm_num, (C2_frame_admission 5 20).2.1 (by norm_num)⟩,
   ⟨rfl, (C2_frame_admission 5 5).2.2 rfl⟩⟩

/-- C3: the fused offset after a probe is exactly the exponential
moving average `(1 - α)·offset + α·offset_meas` with `α = 0.1`
(`filterWeight`), so for every probe with `rtt ≥ 0` the offset moves
by at most `α·|offset_meas - offset|` (an exact equality over exact
arithmetic, hence the bound holds with no floating-point slack). -/
theorem C3_offset_ema (s : ClockSync) (t1 t2 t3 t4 : ℚ) :
    (s.handleResponse t1 t2 t3 t4).offset
        = (1 - filterWeight) * s.offset + filterWeight * (((t2 - t1) + (t3 - t4)) / 2) ∧
    (0 ≤ (t4 - t1) - (t3 - t2) →
      |(s.handleResponse t1 t2 t3 t4).offset - s.offset|
        ≤ filterWeight * |((t2 - t1) + (t3 - t4)) / 2 - s.offset|) := by
  constructor
  · show (s.addSample ⟨((t2 - t1) + (t3 - t4)) / 2, (t4 - t1) - (t3 - t2), t4⟩).offset = _
    rw [addSample_offset]
    ring
  · intro _
    show |(s.addSample ⟨((t2 - t1) + (t3 - t4)) / 2, (t4 - t1) - (t3 - t2), t4⟩).offset
        - s.offset| ≤ _
    exact le_of_eq (addSample_offset_delta s _)

theorem C3_witness :
    (0 : ℚ) ≤ (0 - 0) - (0 - 0) ∧
    |(ClockSync.init.handleResponse 0 0 0 0).offset - ClockSync.init.offset|
      ≤ filterWeight * |((0 - 0) + (0 - 0)) / 2 - ClockSync.init.offset| :=
  ⟨by norm_num, (C3_offset_ema ClockSync.init 0 0 0 0).2 (by norm_num)⟩

/-- C4: drift is recomputed only once the ring holds at least 3
samples (`addSample` leaves it untouched below that, and
`calculateDrift` returns the state unchanged below 3); on at least 3
samples it is the ordinary-least-squares slope of offset against raw
receive time over the last `min(10, |samples|)` samples, and it is
left unchanged when the regression denominator is at most `10⁻⁴` in
magnitude. -/
theorem C4_drift_regression (s : ClockSync) (smp : ClockSample) :
    (s.samples.length < 2 → (s.addSample smp).drift = s.drift) ∧
    (s.samples.length < 3 → s.calculateDrift = s) ∧
    (2 ≤ s.samples.length → s.samples.length ≤ 19 →
      (s.addSample smp).drift
        = (ClockSync.mk (s.offset * (1 - filterWeight) + smp.offset * filterWeight) s.drift
            (s.samples ++ [smp]) s.lastSyncTime).calculateDrift.drift) ∧
    (3 ≤ s.samples.length → |olsDenom (recentWindow s)| ≤ 0.0001 →
      s.calculateDrift.drift = s.drift) ∧
    (3 ≤ s.samples.length → 0.0001 < |olsDenom (recentWindow s)| →
      s.calculateDrift.drift = olsSlope (recentWindow s)) := by
  refine ⟨addSample_drift_small s smp, fun h => ?_, addSample_drift_calc s smp,
    fun h3 hd => ?_, fun h3 hd => ?_⟩
  · unfold ClockSync.calculateDrift
    rw [if_pos h]
  · rw [calculateDrift_eq s h3, if_neg (not_lt.mpr hd)]
  · rw [calculateDrift_eq s h3, if_pos hd]

theorem C4_witness :
    (ClockSync.init.addSample ⟨1, 1, 1⟩).drift = ClockSync.init.drift ∧
    (ClockSync.mk 0 0 [⟨0, 0, 0⟩, ⟨1, 0, 1⟩] 0).calculateDrift
        = ClockSync.mk 0 0 [⟨0, 0, 0⟩, ⟨1, 0, 1⟩] 0 ∧
    ((ClockSync.mk 0 0 [⟨0, 0, 0⟩, ⟨1, 0, 1⟩] 0).addSample ⟨2, 0, 2⟩).drift
        = (ClockSync.mk (0 * (1 - filterWeight) + 2 * filterWeight) 0
            ([⟨0, 0, 0⟩, ⟨1, 0, 1⟩] ++ [⟨2, 0, 2⟩]) 0).calculateDrift.drift ∧
    (ClockSync.mk 0 0 [⟨5, 0, 7⟩, ⟨6, 0, 7⟩, ⟨9, 0, 7⟩] 0).calculateDrift.drift
        = (ClockSync.mk 0 0 [⟨5, 0, 7⟩, ⟨6, 0, 7⟩, ⟨9, 0, 7⟩] 0).drift ∧
    (ClockSync.mk 0 0 [⟨0, 0, 0⟩, ⟨-2, 0, 1⟩, ⟨-4, 0, 2⟩] 0).calculateDrift.drift
        = olsSlope (recentWindow (ClockSync.mk 0 0 [⟨0, 0, 0⟩, ⟨-2, 0, 1⟩, ⟨-4, 0, 2⟩] 0)) :=
  ⟨(C4_drift_regression ClockSync.init ⟨1, 1, 1⟩).1 (by decide),
   (C4_drift_regression (ClockSync.mk 0 0 [⟨0, 0, 0⟩, ⟨1, 0, 1⟩] 0) ⟨2, 0, 2⟩).2.1 (by decide),
   (C4_drift_regression (ClockSync.mk 0 0 [⟨0, 0, 0⟩, ⟨1, 0, 1⟩] 0) ⟨2, 0, 2⟩).2.2.1
     (by decide) (by decide),
   (C4_drift_regression (ClockSync.mk 0 0 [⟨5, 0, 7⟩, ⟨6, 0, 7⟩, ⟨9, 0, 7⟩] 0) ⟨0, 0, 0⟩).2.2.2.1
     (by decide) (by norm_num [olsDenom, recentWindow, sliceLast, sumX, sumXX]),
   (C4_drift_regression (ClockSync.mk 0 0 [⟨0, 0, 0⟩, ⟨-2, 0, 1⟩, ⟨-4, 0, 2⟩] 0)
     ⟨0, 0, 0⟩).2.2.2.2 (by decide)
     (by norm_num [olsDenom, recentWindow, sliceLast, sumX, sumXX])⟩

/-- C5 (counterexample): a state reachable by three quick-sample
submissions (offsets 0, −2, −4 at local times 0, 1, 2) acquires drift
−2, and on it `now()` is strictly decreasing across the monotone local
step from `t_local = 2` to `t_local = 3`. -/
theorem C5_counterexample :
    (2 : ℚ) < 3 ∧
    (((ClockSync.init.updateQuickSample 0 0 0).updateQuickSample (-2) 0 1).updateQuickSample
        (-4) 0 2).now 3
      < (((ClockSync.init.updateQuickSample 0 0 0).updateQuickSample (-2) 0 1).updateQuickSample
          (-4) 0 2).now 2 := by
  norm_num [ClockSync.init, ClockSync.updateQuickSample, ClockSync.addSample,
    ClockSync.calculateDrift, ClockSync.now, sliceLast, sumX, sumY, sumXY, sumXX,
    filterWeight, maxSamples]

/-- C5 (amended): between state updates, `now()` is monotone
non-decreasing in the local time precisely when the state's drift is
at least −1; the code does not clamp drift, so drift below −1 is
reachable and breaks monotonicity (see the counterexample). -/
theorem C5_now_monotone (s : ClockSync) (t t' : ℚ) (hd : -1 ≤ s.drift) (ht : t ≤ t') :
    s.now t ≤ s.now t' := by
  have key : s.now t' - s.now t = (t' - t) * (1 + s.drift) := by
    unfold ClockSync.now
    ring
  nlinarith [mul_nonneg (sub_nonneg.mpr ht) (by linarith : (0:ℚ) ≤ 1 + s.drift)]

theorem C5_witness :
    (-1 : ℚ) ≤ ClockSync.init.drift ∧ (1 : ℚ) ≤ 2 ∧
    ClockSync.init.now 1 ≤ ClockSync.init.now 2 :=
  ⟨by norm_num [ClockSync.init], by norm_num,
   C5_now_monotone ClockSync.init 1 2 (by norm_num [ClockSync.init]) (by norm_num)⟩

/-- C6 (counterexample): a probe whose response carries a NaN wire
timestamp (`t2 = NaN`, an input the code can receive in a malformed
`clock_sync_response`) with ordinary finite local readings `t1 = 0`,
`t4 = 1` makes both `rtt` and `offset_meas` NaN, yet `handleResponse`
does not swallow it: over the IEEE special-value model the sample is
appended (ring length grows to 1) and the fused offset becomes NaN —
the state is changed, not left unchanged. -/
theorem C6_counterexample :
    JSModel.ClockSync.init.handleResponse (JSVal.fin 0) JSVal.nan (JSVal.fin 0) (JSVal.fin 1)
        ≠ JSModel.ClockSync.init ∧
    (JSModel.ClockSync.init.handleResponse (JSVal.fin 0) JSVal.nan (JSVal.fin 0)
        (JSVal.fin 1)).samples.length = 1 ∧
    (JSModel.ClockSync.init.handleResponse (JSVal.fin 0) JSVal.nan (JSVal.fin 0)
        (JSVal.fin 1)).offset = JSVal.nan ∧
    ((JSVal.fin 1).sub (JSVal.fin 0)).sub ((JSVal.fin 0).sub JSVal.nan) = JSVal.nan := by
  decide

/-- C6 (amended): the code contains no finiteness guard on either
path — every probe and every quick-sample submission, including one
whose arithmetic produces NaN, is appended and fused through the
unconditional `addSample` path, so NaN propagates into the fused
offset instead of leaving the state unchanged. -/
theorem C6_no_finiteness_guard (s : JSModel.ClockSync) (o r t t1 t2 t3 t4 : JSVal) :
    s.handleResponse t1 t2 t3 t4
        = s.addSample ⟨((t2.sub t1).add (t3.sub t4)).div (JSVal.fin 2),
            (t4.sub t1).sub (t3.sub t2), t4⟩ ∧
    (s.handleResponse t1 t2 t3 t4).samples.getLast?
        = some ⟨((t2.sub t1).add (t3.sub t4)).div (JSVal.fin 2),
            (t4.sub t1).sub (t3.sub t2), t4⟩ ∧
    (s.handleResponse t1 t2 t3 t4).offset
        = (s.offset.mul ((JSVal.fin 1).sub (JSVal.fin 0.1))).add
            ((((t2.sub t1).add (t3.sub t4)).div (JSVal.fin 2)).mul (JSVal.fin 0.1)) ∧
    s.updateQuickSample o r t = s.addSample ⟨o, r, t⟩ ∧
    (s.updateQuickSample o r t).samples.getLast? = some ⟨o, r, t⟩ ∧
    (s.updateQuickSample o r t).lastSyncTime = t ∧
    (s.updateQuickSample o r t).offset
      = (s.offset.mul ((JSVal.fin 1).sub (JSVal.fin 0.1))).add (o.mul (JSVal.fin 0.1)) :=
  ⟨rfl, JSModel.jsAddSample_getLast _ _, JSModel.jsAddSample_offset _ _,
   rfl, JSModel.jsAddSample_getLast _ _, rfl, JSModel.jsAddSample_offset _ _⟩

/-- C7 (counterexample): the reported quality tracks the raw
last-sample RTT, not the spec's smoothed value: after raw RTTs of 1 ms
then 60 ms, the code reports Fair (two boundaries crossed at once),
while the EMA-smoothed value `0.9·(0.1·1) + 0.1·60 = 6.09 ms` has never
crossed the 10 ms threshold and would still give Excellent. -/
theorem C7_counterexample :
    SoluSyncClient.getNetworkQuality (ClockSync.init.updateQuickSample 0 (1/1000) 0)
        = NetworkQuality.excellent ∧
    SoluSyncClient.getNetworkQuality
        ((ClockSync.init.updateQuickSample 0 (1/1000) 0).updateQuickSample 0 (6/100) 1)
        = NetworkQuality.fair ∧
    qualityOfRTT (specSmoothedRTT [1, 60]) = NetworkQuality.excellent ∧
    NetworkQuality.fair ≠ NetworkQuality.excellent := by
  refine ⟨?_, ?_, ?_, by decide⟩ <;>
    norm_num [ClockSync.init, ClockSync.updateQuickSample, ClockSync.addSample,
      ClockSync.calculateDrift, ClockSync.getLastRTT, SoluSyncClient.getNetworkQuality,
      qualityOfRTT, specSmoothedRTT, sliceLast, filterWeight, maxSamples]

/-- C7 (amended): the network quality level (thresholds 10/50/100/200
ms) is decided directly from the raw RTT of the most recent sample
converted to milliseconds; no EMA smoothing is applied and loss is not
consulted, so the reported quality changes the moment a single raw
sample crosses a table boundary. -/
theorem C7_quality_from_raw_rtt (s : ClockSync) (smp : ClockSample) :
    SoluSyncClient.getNetworkQuality (s.addSample smp) = qualityOfRTT (smp.rtt * 1000) := by
  unfold SoluSyncClient.getNetworkQuality
  rw [getLastRTT_addSample]

/-- C8 (counterexample): a sample whose round-trip time is `0.05`
seconds makes `getLastRTT` return `50` — the value in milliseconds —
rather than the stored seconds value `0.05`. -/
theorem C8_counterexample :
    (ClockSync.init.updateQuickSample 0 (1/20) 0).samples.getLast? = some ⟨0, 1/20, 0⟩ ∧
    (ClockSync.init.updateQuickSample 0 (1/20) 0).getLastRTT = 50 ∧
    (50 : ℚ) ≠ 1/20 := by
  norm_num [ClockSync.init, ClockSync.updateQuickSample, ClockSync.addSample,
    ClockSync.calculateDrift, ClockSync.getLastRTT, sliceLast, filterWeight, maxSamples]

/-- C8 (amended): `getLastRTT` returns the round-trip time of the most
recent sample multiplied by 1000, i.e. in milliseconds — not in the
seconds unit used by the rest of the interface. -/
theorem C8_last_rtt_in_milliseconds (s : ClockSync) (smp : ClockSample) :
    (s.addSample smp).getLastRTT = smp.rtt * 1000 :=
  getLastRTT_addSample s smp

/-- C9: after any insertion the ring holds at most `maxSamples = 20`
samples; the new ring is the suffix of the old ring with the new
sample appended (oldest-first order is preserved), and in particular a
timestamp-ordered ring extended by a no-older sample stays
timestamp-ordered. -/
theorem C9_ring_capacity_order (s : ClockSync) (smp : ClockSample) :
    (s.addSample smp).samples.length ≤ maxSamples ∧
    (s.addSample smp).samples = (s.samples ++ [smp]).drop (s.samples.length + 1 - maxSamples) ∧
    (List.Chain' (fun a b => a.timestamp ≤ b.timestamp) s.samples →
      (∀ a ∈ s.samples, a.timestamp ≤ smp.timestamp) →
      List.Chain' (fun a b => a.timestamp ≤ b.timestamp) (s.addSample smp).samples) := by
  refine ⟨?_, addSample_samples s smp, fun hchain hle => ?_⟩
  · rw [addSample_length]
    exact Nat.min_le_right _ _
  · rw [addSample_samples]
    apply List.Chain'.drop
    refine List.chain'_append.mpr ⟨hchain, List.chain'_singleton smp, ?_⟩
    intro x hx y hy
    have hxmem : x ∈ s.samples := by
      obtain ⟨hne, rfl⟩ := List.mem_getLast?_eq_getLast hx
      exact List.getLast_mem hne
    have hy' : smp = y := by simpa using hy
    subst hy'
    exact hle x hxmem

theorem C9_witness :
    List.Chain' (fun a b : ClockSample => a.timestamp ≤ b.timestamp)
        [⟨0, 0, 0⟩, ⟨0, 0, 1⟩] ∧
    (∀ a ∈ [(⟨0, 0, 0⟩ : ClockSample), ⟨0, 0, 1⟩],
        a.timestamp ≤ (ClockSample.mk 0 0 2).timestamp) ∧
    List.Chain' (fun a b : ClockSample => a.timestamp ≤ b.timestamp)
        ((ClockSync.mk 0 0 [⟨0, 0, 0⟩, ⟨0, 0, 1⟩] 0).addSample ⟨0, 0, 2⟩).samples :=
  ⟨by norm_num [List.chain'_cons, List.chain'_singleton], by decide,
   (C9_ring_capacity_order (ClockSync.mk 0 0 [⟨0, 0, 0⟩, ⟨0, 0, 1⟩] 0) ⟨0, 0, 2⟩).2.2
     (by norm_num [List.chain'_cons, List.chain'_singleton]) (by decide)⟩

/-- C10: the heartbeat-derived quick sample goes through exactly the
same fusion path as a four-timestamp probe: `handleHeartbeat` reduces
to `updateQuickSample`, which — like `handleResponse` — is
`addSample` on the wrapped sample, so the same EMA weight
(`filterWeight = 0.1`), the same anchor update to the sample receive
time, and the same unconditional append (no RTT validation, no
reduced weighting) apply to it. -/
theorem C10_quick_sample_same_path (s : ClockSync) (o r t ct st t1 t2 t3 t4 : ℚ) :
    SoluSyncClient.handleHeartbeat s ct st t
        = s.updateQuickSample (st - t + (t - ct) / 2) (t - ct) t ∧
    s.updateQuickSample o r t = s.addSample ⟨o, r, t⟩ ∧
    s.handleResponse t1 t2 t3 t4
        = s.addSample ⟨((t2 - t1) + (t3 - t4)) / 2, (t4 - t1) - (t3 - t2), t4⟩ ∧
    (s.updateQuickSample o r t).offset = s.offset * (1 - filterWeight) + o * filterWeight ∧
    (s.updateQuickSample o r t).lastSyncTime = t ∧
    (s.updateQuickSample o r t).samples.getLast? = some ⟨o, r, t⟩ :=
  ⟨rfl, rfl, rfl, addSample_offset s ⟨o, r, t⟩, rfl, addSample_getLast s ⟨o, r, t⟩⟩

end SoluSync
